import Mathlib

/-!
# Shallow embedding of the N-body gravitational core

This file embeds the simulation core of the solar-system visualization
(`src/js/scripts.js`; the second, unnamed source file is a near-duplicate
variant that differs in the trace-buffer capacity, 1000 instead of 2500).

JavaScript numbers are modelled as real numbers.  `THREE.Vector3` values are
modelled by `Vec3`.  `THREE.Vector3` operations such as `sub`,
`multiplyScalar`, `normalize` and `addScaledVector` mutate the receiver in
place and return it; the functional embedding threads those mutations
explicitly, so a later read of a "mutated" vector refers to its latest
value.  In particular, in `Planet.attract` the local variables `dir`,
`force` and `acceleration` all alias one `Vector3` object, so the entry the
code stores into `forces[planet.name]` holds that object's final value —
the acceleration — not the intermediate force value.
-/

noncomputable section

namespace SolarSystem

/-- A `THREE.Vector3` value. -/
@[ext]
structure Vec3 where
  x : ℝ
  y : ℝ
  z : ℝ

namespace Vec3

/-- Componentwise sum (`THREE.Vector3.add`). -/
def add (a b : Vec3) : Vec3 := ⟨a.x + b.x, a.y + b.y, a.z + b.z⟩

/-- Componentwise difference (`THREE.Vector3.sub`): `a.sub(b)` leaves `a - b`. -/
def sub (a b : Vec3) : Vec3 := ⟨a.x - b.x, a.y - b.y, a.z - b.z⟩

/-- `v.multiplyScalar(c)` (scalar first in this curried form). -/
def smul (c : ℝ) (v : Vec3) : Vec3 := ⟨v.x * c, v.y * c, v.z * c⟩

/-- `v.addScaledVector(w, s)`: componentwise `x + w.x * s`. -/
def addScaledVector (v w : Vec3) (s : ℝ) : Vec3 :=
  ⟨v.x + w.x * s, v.y + w.y * s, v.z + w.z * s⟩

/-- `v.length()`: `Math.sqrt(x*x + y*y + z*z)`. -/
def length (v : Vec3) : ℝ := Real.sqrt (v.x * v.x + v.y * v.y + v.z * v.z)

/-- `a.distanceTo(b)`: Euclidean distance between the two points. -/
def distanceTo (a b : Vec3) : ℝ :=
  Real.sqrt ((a.x - b.x) * (a.x - b.x) + (a.y - b.y) * (a.y - b.y) + (a.z - b.z) * (a.z - b.z))

/-- `v.normalize()` is `v.divideScalar(v.length() || 1)`, and `divideScalar(s)`
is `multiplyScalar(1/s)`; the `|| 1` guard replaces a zero length by `1`. -/
def normalize (v : Vec3) : Vec3 :=
  smul (1 / (if length v = 0 then 1 else length v)) v

end Vec3

/-- The gravitational constant `G = 6.67e-11` from `Planet.attract`. -/
def G : ℝ := 6.67e-11

/-- The construction-time velocity pre-scale `4e7` from the `Planet`
constructor (`this.velocity = velocity.multiplyScalar(4e7)`). -/
def velocityScale : ℝ := 4e7

/-- Physical and bookkeeping state of one body.  `position` models
`mesh.position`, the vector the simulation reads and writes (`attract` reads
it, `update` mutates it); the constructor initializes it from the `position`
argument.  `forces` models the plain-object map `this.forces` (absent keys are
`none`); `tracePoints` models the array `this.tracePoints`.  Rendering-only
state (mesh, materials, trace line, force arrows, `atmosphericDensity`) is
omitted: it never feeds back into the simulated quantities. -/
structure Planet where
  name : String
  size : ℝ
  mass : ℝ
  position : Vec3
  velocity : Vec3
  forces : String → Option Vec3
  tracePoints : List Vec3

instance : Inhabited Planet :=
  ⟨⟨"", 0, 0, ⟨0, 0, 0⟩, ⟨0, 0, 0⟩, fun _ => none, []⟩⟩

/-- The distance used by `Planet.attract`:
`Math.max(this.mesh.position.distanceTo(planet.mesh.position), 1)`. -/
def Planet.attractDistance (self planet : Planet) : ℝ :=
  max (Vec3.distanceTo self.position planet.position) 1

/-- The force magnitude computed by `Planet.attract`:
`G * this.mass * planet.mass / (distance * distance)`. -/
def Planet.forceMagnitudeOn (self planet : Planet) : ℝ :=
  G * self.mass * planet.mass /
    (Planet.attractDistance self planet * Planet.attractDistance self planet)

/-- `Planet.attract(planet, dt)` (lines 176–187 of `scripts.js`):

```js
const distance = Math.max(this.mesh.position.distanceTo(planet.mesh.position), 1);
const dir = new THREE.Vector3().copy(planet.mesh.position).sub(this.mesh.position).normalize();
const forceMagnitude = G * this.mass * planet.mass / (distance * distance);
const force = dir.multiplyScalar(forceMagnitude);
const acceleration = force.multiplyScalar(1 / this.mass);
this.velocity.addScaledVector(acceleration, dt);
this.forces[planet.name] = force;
```

`multiplyScalar` mutates in place, so `dir`, `force` and `acceleration` are
one object; by the time `this.forces[planet.name] = force` runs, that object
holds the acceleration value, which is therefore what gets stored. -/
def Planet.attract (self : Planet) (planet : Planet) (dt : ℝ) : Planet :=
  let dir : Vec3 := Vec3.normalize (Vec3.sub planet.position self.position)
  let force : Vec3 := Vec3.smul (Planet.forceMagnitudeOn self planet) dir
  let acceleration : Vec3 := Vec3.smul (1 / self.mass) force
  { self with
    velocity := Vec3.addScaledVector self.velocity acceleration dt
    forces := fun n => if n = planet.name then some acceleration else self.forces n }

/-- Trace-buffer capacity in `src/js/scripts.js`. -/
def traceLimit : ℕ := 2500

/-- Trace-buffer capacity in the second (unnamed) variant of the file. -/
def traceLimitAlt : ℕ := 1000

/-- `Planet.update(dt)` with an explicit trace capacity (lines 189–199 of
`scripts.js` use capacity 2500; the trace logic of the unnamed variant is
identical with 1000):

```js
this.mesh.position.addScaledVector(this.velocity, dt);
this.tracePoints.push(this.mesh.position.clone());
if (this.tracePoints.length > LIMIT) { this.tracePoints.shift(); }
this.trace.geometry.setFromPoints(this.tracePoints);
this.updateForceVisualization();
```

`setFromPoints` only refreshes a rendering object, but
`updateForceVisualization` iterates over `Object.entries(this.forces)` and
calls `createForceArrow(force)`, which executes `force.normalize()`
(line 219 of `scripts.js`): that call mutates every stored forces entry in
place, leaving its normalized value.  (The unnamed variant has no
`updateForceVisualization` and no `forces` map at all; this definition
covers its trace behaviour via the capacity parameter.) -/
def Planet.updateWith (limit : ℕ) (self : Planet) (dt : ℝ) : Planet :=
  let position := Vec3.addScaledVector self.position self.velocity dt
  let trace0 := self.tracePoints ++ [position]
  let trace1 := if trace0.length > limit then trace0.tail else trace0
  { self with
    position := position
    tracePoints := trace1
    forces := fun n => Option.map Vec3.normalize (self.forces n) }

/-- `Planet.update(dt)` as in `src/js/scripts.js` (capacity 2500). -/
def Planet.update (self : Planet) (dt : ℝ) : Planet :=
  Planet.updateWith traceLimit self dt

/-- The inner loop of one frame for the body at index `i`:
`planets.forEach(otherBody => { if (body !== otherBody) body.attract(otherBody, dt); })`.
The `body !== otherBody` object-identity test is modelled as an index test
(the array entries considered here are distinct objects). -/
def attractOthers (dt : ℝ) (ps : List Planet) (i : ℕ) (body : Planet) : Planet :=
  List.foldl (fun b jo => if jo.1 = i then b else Planet.attract b jo.2 dt) body ps.enum

/-- Process bodies at indices `i, i+1, ...` (`n` of them remain): for each
body, run its attraction loop against the current array, then immediately
`update` it in place. -/
def stepGo (dt : ℝ) : ℕ → ℕ → List Planet → List Planet
  | 0, _, ps => ps
  | Nat.succ n, i, ps =>
      stepGo dt n (i + 1)
        (ps.set i (Planet.update (attractOthers dt ps i (ps.getD i default)) dt))

/-- One frame of the simulation loop in `animate` (lines 382–389):

```js
planets.forEach(body => {
  planets.forEach(otherBody => { if (body !== otherBody) body.attract(otherBody, dt); });
  body.update(dt);
});
``` -/
def stepPlanets (dt : ℝ) (ps : List Planet) : List Planet :=
  stepGo dt ps.length 0 ps

/-- The `Planet` constructor's effect on simulation state: fields are set,
the velocity argument is pre-scaled by `4e7`, `forces` starts empty and
`tracePoints` starts `[]`.  The constructor also pushes `this` onto the
global `planets` array; that push is modelled at each construction site. -/
def mkPlanet (name : String) (size : ℝ) (position velocity : Vec3) (mass : ℝ) : Planet :=
  { name := name, size := size, mass := mass, position := position,
    velocity := Vec3.smul velocityScale velocity, forces := fun _ => none, tracePoints := [] }

/-- `spawnObject` (lines 251–285 of `scripts.js`) acting on the global
`planets` array, returning the new array and the new body:

```js
const obj_position = camera.position.clone();
const obj_velocity = obj_velocity_dir.multiplyScalar(planetVelocity);
const object = new Planet('new planet', planetSize, ..., obj_position, obj_velocity, planetMass, true);
planets.push(object);
```

`new Planet(...)` pushes the object onto `planets` inside the constructor,
and then `spawnObject` pushes the same object again. -/
def spawnObject (planets : List Planet) (planetMass planetSize planetVelocity : ℝ)
    (cameraPosition cameraDirection : Vec3) : List Planet × Planet :=
  let obj_position := cameraPosition
  let obj_velocity := Vec3.smul planetVelocity cameraDirection
  let object := mkPlanet "new planet" planetSize obj_position obj_velocity planetMass
  (planets ++ [object] ++ [object], object)

/-! ## Basic lemmas about the vector operations -/

lemma Vec3.distanceTo_eq_length_sub (a b : Vec3) :
    Vec3.distanceTo a b = Vec3.length (Vec3.sub b a) := by
  unfold Vec3.distanceTo Vec3.length Vec3.sub
  ring_nf

lemma Vec3.distanceTo_eq_zero_iff (a b : Vec3) :
    Vec3.distanceTo a b = 0 ↔ a = b := by
  unfold Vec3.distanceTo
  rw [show (a.x - b.x) * (a.x - b.x) + (a.y - b.y) * (a.y - b.y) + (a.z - b.z) * (a.z - b.z)
        = (a.x - b.x) ^ 2 + (a.y - b.y) ^ 2 + (a.z - b.z) ^ 2 by ring]
  constructor
  · intro h
    have h0 : (a.x - b.x) ^ 2 + (a.y - b.y) ^ 2 + (a.z - b.z) ^ 2 = 0 := by
      have hnn : 0 ≤ (a.x - b.x) ^ 2 + (a.y - b.y) ^ 2 + (a.z - b.z) ^ 2 := by positivity
      have := (Real.sqrt_eq_zero hnn).mp h
      exact this
    have hx : (a.x - b.x) ^ 2 = 0 := by nlinarith [sq_nonneg (a.x - b.x), sq_nonneg (a.y - b.y), sq_nonneg (a.z - b.z)]
    have hy : (a.y - b.y) ^ 2 = 0 := by nlinarith [sq_nonneg (a.x - b.x), sq_nonneg (a.y - b.y), sq_nonneg (a.z - b.z)]
    have hz : (a.z - b.z) ^ 2 = 0 := by nlinarith [sq_nonneg (a.x - b.x), sq_nonneg (a.y - b.y), sq_nonneg (a.z - b.z)]
    ext
    · exact sub_eq_zero.mp (sq_eq_zero_iff.mp hx)
    · exact sub_eq_zero.mp (sq_eq_zero_iff.mp hy)
    · exact sub_eq_zero.mp (sq_eq_zero_iff.mp hz)
  · intro h
    subst h
    simp [Real.sqrt_eq_zero']

/-- For distinct endpoints, `normalize` of the difference is scaling by the
reciprocal distance (the guarded branch of `|| 1` is not taken). -/
lemma Vec3.normalize_sub_of_ne (a b : Vec3) (h : a ≠ b) :
    Vec3.normalize (Vec3.sub b a) =
      Vec3.smul (1 / Vec3.distanceTo a b) (Vec3.sub b a) := by
  have hd : Vec3.distanceTo a b ≠ 0 := fun h0 => h ((Vec3.distanceTo_eq_zero_iff a b).mp h0)
  unfold Vec3.normalize
  rw [← Vec3.distanceTo_eq_length_sub, if_neg hd]

/-! ## Projection lemmas for `attract` and `update` -/

/-- The acceleration vector computed by `Planet.attract` (the shared mutated
vector's final value): direction, scaled by the force magnitude, scaled by
`1 / self.mass`. -/
def Planet.accelOn (self planet : Planet) : Vec3 :=
  Vec3.smul (1 / self.mass)
    (Vec3.smul (Planet.forceMagnitudeOn self planet)
      (Vec3.normalize (Vec3.sub planet.position self.position)))

lemma Planet.attract_velocity (self planet : Planet) (dt : ℝ) :
    (Planet.attract self planet dt).velocity =
      Vec3.addScaledVector self.velocity (Planet.accelOn self planet) dt := rfl

lemma Planet.attract_forces_apply (self planet : Planet) (dt : ℝ) (n : String) :
    (Planet.attract self planet dt).forces n =
      if n = planet.name then some (Planet.accelOn self planet) else self.forces n := rfl

lemma Planet.attract_position (self planet : Planet) (dt : ℝ) :
    (Planet.attract self planet dt).position = self.position := rfl

lemma Planet.attract_mass (self planet : Planet) (dt : ℝ) :
    (Planet.attract self planet dt).mass = self.mass := rfl

lemma Planet.attract_size (self planet : Planet) (dt : ℝ) :
    (Planet.attract self planet dt).size = self.size := rfl

lemma Planet.attract_name (self planet : Planet) (dt : ℝ) :
    (Planet.attract self planet dt).name = self.name := rfl

lemma Planet.attract_tracePoints (self planet : Planet) (dt : ℝ) :
    (Planet.attract self planet dt).tracePoints = self.tracePoints := rfl

lemma Planet.updateWith_position (limit : ℕ) (self : Planet) (dt : ℝ) :
    (Planet.updateWith limit self dt).position =
      Vec3.addScaledVector self.position self.velocity dt := rfl

lemma Planet.updateWith_velocity (limit : ℕ) (self : Planet) (dt : ℝ) :
    (Planet.updateWith limit self dt).velocity = self.velocity := rfl

lemma Planet.updateWith_mass (limit : ℕ) (self : Planet) (dt : ℝ) :
    (Planet.updateWith limit self dt).mass = self.mass := rfl

lemma Planet.updateWith_forces (limit : ℕ) (self : Planet) (dt : ℝ) :
    (Planet.updateWith limit self dt).forces =
      fun n => Option.map Vec3.normalize (self.forces n) := rfl

lemma Planet.updateWith_tracePoints (limit : ℕ) (self : Planet) (dt : ℝ) :
    (Planet.updateWith limit self dt).tracePoints =
      if (self.tracePoints ++ [Vec3.addScaledVector self.position self.velocity dt]).length > limit
      then (self.tracePoints ++ [Vec3.addScaledVector self.position self.velocity dt]).tail
      else self.tracePoints ++ [Vec3.addScaledVector self.position self.velocity dt] := rfl

/-- After any `update` with a positive capacity, the new position is the last
element of the trace buffer. -/
lemma Planet.updateWith_tracePoints_getLast (limit : ℕ) (hl : 0 < limit)
    (self : Planet) (dt : ℝ) :
    (Planet.updateWith limit self dt).tracePoints.getLast? =
      some ((Planet.updateWith limit self dt).position) := by
  rw [Planet.updateWith_tracePoints, Planet.updateWith_position]
  set p := Vec3.addScaledVector self.position self.velocity dt with hp
  split_ifs with h
  · have hne : self.tracePoints ≠ [] := by
      intro h0
      rw [h0] at h
      simp at h
      omega
    obtain ⟨a, l, hl'⟩ : ∃ a l, self.tracePoints = a :: l :=
      ⟨self.tracePoints.head hne, self.tracePoints.tail, (List.head_cons_tail _ hne).symm⟩
    rw [hl']
    simp only [List.cons_append, List.tail_cons]
    exact List.getLast?_concat _
  · exact List.getLast?_concat _

/-! ## Concrete sample bodies for counterexamples and witnesses -/

/-- A body of mass 2 at the origin, at rest. -/
def pA : Planet := ⟨"A", 1, 2, ⟨0, 0, 0⟩, ⟨0, 0, 0⟩, fun _ => none, []⟩

/-- A body of mass 3 at `(2, 0, 0)`, at rest. -/
def pB : Planet := ⟨"B", 1, 3, ⟨2, 0, 0⟩, ⟨0, 0, 0⟩, fun _ => none, []⟩

lemma pA_position_ne_pB : pA.position ≠ pB.position :=
  fun h => two_ne_zero ((congrArg Vec3.x h).symm)

/-! ## Axis computation helpers -/

lemma Vec3.distanceTo_x (a b : ℝ) :
    Vec3.distanceTo ⟨a, 0, 0⟩ ⟨b, 0, 0⟩ = |a - b| := by
  unfold Vec3.distanceTo
  rw [show (a - b) * (a - b) + ((0:ℝ) - 0) * (0 - 0) + ((0:ℝ) - 0) * (0 - 0) = (a - b) ^ 2 by ring,
    Real.sqrt_sq_eq_abs]

lemma Vec3.length_x (c : ℝ) : Vec3.length ⟨c, 0, 0⟩ = |c| := by
  unfold Vec3.length
  rw [show c * c + (0:ℝ) * 0 + (0:ℝ) * 0 = c ^ 2 by ring, Real.sqrt_sq_eq_abs]

lemma Vec3.distanceTo_x_of_le (a b : ℝ) (h : a ≤ b) :
    Vec3.distanceTo ⟨a, 0, 0⟩ ⟨b, 0, 0⟩ = b - a := by
  rw [Vec3.distanceTo_x, abs_sub_comm, abs_of_nonneg (sub_nonneg.mpr h)]

lemma Vec3.normalize_x_pos (c : ℝ) (hc : 0 < c) :
    Vec3.normalize ⟨c, 0, 0⟩ = ⟨1, 0, 0⟩ := by
  unfold Vec3.normalize
  rw [Vec3.length_x, abs_of_pos hc, if_neg (ne_of_gt hc)]
  have hc' : c ≠ 0 := ne_of_gt hc
  ext <;> simp [Vec3.smul] <;> field_simp

lemma Vec3.normalize_x_neg (c : ℝ) (hc : c < 0) :
    Vec3.normalize ⟨c, 0, 0⟩ = ⟨-1, 0, 0⟩ := by
  unfold Vec3.normalize
  rw [Vec3.length_x, abs_of_neg hc, if_neg (by simpa using ne_of_lt hc)]
  have hc' : c ≠ 0 := ne_of_lt hc
  ext <;> simp [Vec3.smul]
  field_simp

/-! ## C1 -/

/-- C1: for every pair of bodies `(A, B)` with positive masses and every
`dt > 0` (positions distinct, so that the unit direction from A toward B
exists), a single call `A.attract(B, dt)` changes A's velocity by exactly
`(G·mA·mB/max(d,1)²)/mA · dt` in the unit direction from A's position toward
B's position, and by nothing else. -/
theorem C1_attract_velocity_change (A B : Planet) (dt : ℝ)
    (hmA : 0 < A.mass) (hmB : 0 < B.mass) (hdt : 0 < dt)
    (hpos : A.position ≠ B.position) :
    (Planet.attract A B dt).velocity =
      Vec3.add A.velocity
        (Vec3.smul
          (G * A.mass * B.mass / (max (Vec3.distanceTo A.position B.position) 1) ^ 2
            / A.mass * dt)
          (Vec3.smul (1 / Vec3.distanceTo A.position B.position)
            (Vec3.sub B.position A.position))) := by
  rw [Planet.attract_velocity]
  unfold Planet.accelOn
  rw [Vec3.normalize_sub_of_ne A.position B.position hpos]
  unfold Planet.forceMagnitudeOn Planet.attractDistance
  ext <;> simp only [Vec3.add, Vec3.smul, Vec3.addScaledVector, Vec3.sub] <;> ring

/-- Witness for C1 at the concrete pair `(pA, pB)` with `dt = 1`. -/
theorem C1_witness :
    0 < pA.mass ∧ 0 < pB.mass ∧ (0:ℝ) < 1 ∧ pA.position ≠ pB.position ∧
    (Planet.attract pA pB 1).velocity =
      Vec3.add pA.velocity
        (Vec3.smul
          (G * pA.mass * pB.mass / (max (Vec3.distanceTo pA.position pB.position) 1) ^ 2
            / pA.mass * 1)
          (Vec3.smul (1 / Vec3.distanceTo pA.position pB.position)
            (Vec3.sub pB.position pA.position))) :=
  ⟨two_pos, three_pos, one_pos, pA_position_ne_pB,
    C1_attract_velocity_change pA pB 1 two_pos three_pos one_pos pA_position_ne_pB⟩

/-! ## C3 -/

/-- A body with a stored (non-unit) forces entry: `forces["B"] = (2, 0, 0)`. -/
def pF : Planet :=
  ⟨"F", 1, 2, ⟨0, 0, 0⟩, ⟨0, 0, 0⟩,
    fun n => if n = "B" then some ⟨2, 0, 0⟩ else none, []⟩

/-- C3 counterexample: `update` does change a forces entry. The entry
`forces["B"] = (2, 0, 0)` of the concrete body `pF` is mutated in place by
`force.normalize()` inside `createForceArrow` (called from `update` via
`updateForceVisualization`), becoming the unit vector `(1, 0, 0)`. -/
theorem C3_counterexample :
    (Planet.update pF 1).forces "B" ≠ pF.forces "B" := by
  have h1 : (Planet.update pF 1).forces "B" = some (Vec3.normalize ⟨2, 0, 0⟩) := rfl
  rw [h1, Vec3.normalize_x_pos 2 (by norm_num)]
  show some (⟨1, 0, 0⟩ : Vec3) ≠ some ⟨2, 0, 0⟩
  intro h
  rw [Option.some.injEq, Vec3.mk.injEq] at h
  exact absurd h.1 (by norm_num)

/-- C3 (amended): for every body and every non-negative `dt`, after
`update(dt)` the position equals `position_before + velocity_after · dt`
exactly and the reached position is the new last element of `tracePoints`;
`update` changes no velocity or mass, but it replaces every stored forces
entry by its in-place normalization (`force.normalize()` in
`createForceArrow`, reached from `update` through
`updateForceVisualization`). -/
theorem C3_update_position_trace (s : Planet) (dt : ℝ) (h : 0 ≤ dt) :
    (Planet.update s dt).position =
      Vec3.add s.position (Vec3.smul dt ((Planet.update s dt).velocity)) ∧
    (Planet.update s dt).tracePoints.getLast? = some ((Planet.update s dt).position) ∧
    (Planet.update s dt).velocity = s.velocity ∧
    (Planet.update s dt).mass = s.mass ∧
    ∀ n, (Planet.update s dt).forces n = Option.map Vec3.normalize (s.forces n) := by
  refine ⟨rfl, ?_, rfl, rfl, fun n => rfl⟩
  exact Planet.updateWith_tracePoints_getLast traceLimit (by decide) s dt

/-- Witness for the amended C3 at the concrete body `pA` with `dt = 1`. -/
theorem C3_witness :
    (0:ℝ) ≤ 1 ∧
    ((Planet.update pA 1).position =
      Vec3.add pA.position (Vec3.smul 1 ((Planet.update pA 1).velocity)) ∧
    (Planet.update pA 1).tracePoints.getLast? = some ((Planet.update pA 1).position) ∧
    (Planet.update pA 1).velocity = pA.velocity ∧
    (Planet.update pA 1).mass = pA.mass ∧
    ∀ n, (Planet.update pA 1).forces n = Option.map Vec3.normalize (pA.forces n)) :=
  ⟨zero_le_one, C3_update_position_trace pA 1 zero_le_one⟩

/-! ## C10 -/

/-- C10: `body.attract(other, dt)` changes only the body's velocity and the
single entry `forces[other.name]`: its position, mass, size, name and
tracePoints are unchanged, and every other forces entry is unchanged.  (The
other body is not modified at all: in the source, `attract` only reads
`planet.mesh.position`, `planet.mass` and `planet.name`, and the embedding's
`attract` accordingly returns only a new `self`.) -/
theorem C10_attract_frame (self other : Planet) (dt : ℝ) :
    (Planet.attract self other dt).position = self.position ∧
    (Planet.attract self other dt).mass = self.mass ∧
    (Planet.attract self other dt).size = self.size ∧
    (Planet.attract self other dt).name = self.name ∧
    (Planet.attract self other dt).tracePoints = self.tracePoints ∧
    ∀ n, n ≠ other.name → (Planet.attract self other dt).forces n = self.forces n := by
  refine ⟨rfl, rfl, rfl, rfl, rfl, fun n hn => ?_⟩
  rw [Planet.attract_forces_apply, if_neg hn]

/-- Witness for C10 at `(pA, pB)` with `dt = 1` and the name `"Sun"`. -/
theorem C10_witness :
    "Sun" ≠ pB.name ∧ (Planet.attract pA pB 1).forces "Sun" = pA.forces "Sun" :=
  ⟨by decide, (C10_attract_frame pA pB 1).2.2.2.2.2 "Sun" (by decide)⟩

/-! ## C4 -/

/-- Iterated `update` calls with the given sequence of time steps. -/
def Planet.iterUpdate (limit : ℕ) (s : Planet) : List ℝ → Planet
  | [] => s
  | dt :: ds => Planet.iterUpdate limit (Planet.updateWith limit s dt) ds

/-- The chronological list of positions appended to the trace buffer by the
iterated `update` calls. -/
def Planet.tracePositions (limit : ℕ) (s : Planet) : List ℝ → List Vec3
  | [] => []
  | dt :: ds =>
      (Planet.updateWith limit s dt).position ::
        Planet.tracePositions limit (Planet.updateWith limit s dt) ds

lemma Planet.tracePositions_length (limit : ℕ) (dts : List ℝ) :
    ∀ s : Planet, (Planet.tracePositions limit s dts).length = dts.length := by
  induction dts with
  | nil => intro s; rfl
  | cons dt ds ih => intro s; simp [Planet.tracePositions, ih]

lemma List.tail_append_drop {α : Type} (l r : List α) (n : ℕ) (h : l ≠ []) :
    (l.tail ++ r).drop n = (l ++ r).drop (n + 1) := by
  cases l with
  | nil => exact absurd rfl h
  | cons a l' => simp [List.drop_succ_cons]

/-- After any sequence of `update` calls starting from a trace buffer within
capacity, the trace buffer holds exactly the suffix of capacity `limit` of
the old buffer followed by the appended positions. -/
lemma Planet.iterUpdate_tracePoints (limit : ℕ) (dts : List ℝ) :
    ∀ s : Planet, s.tracePoints.length ≤ limit →
      (Planet.iterUpdate limit s dts).tracePoints =
        (s.tracePoints ++ Planet.tracePositions limit s dts).drop
          (s.tracePoints.length + dts.length - limit) := by
  induction dts with
  | nil =>
      intro s h
      simp [Planet.iterUpdate, Planet.tracePositions, Nat.sub_eq_zero_of_le h]
  | cons dt ds ih =>
      intro s h
      have htrace : (Planet.updateWith limit s dt).tracePoints =
          if (s.tracePoints ++ [(Planet.updateWith limit s dt).position]).length > limit
          then (s.tracePoints ++ [(Planet.updateWith limit s dt).position]).tail
          else s.tracePoints ++ [(Planet.updateWith limit s dt).position] := rfl
      show (Planet.iterUpdate limit (Planet.updateWith limit s dt) ds).tracePoints = _
      by_cases hc :
          (s.tracePoints ++ [(Planet.updateWith limit s dt).position]).length > limit
      · -- eviction branch: the buffer was exactly at capacity
        have hlen : s.tracePoints.length = limit := by
          simp [List.length_append] at hc
          omega
        rw [if_pos hc] at htrace
        have hlen' : (Planet.updateWith limit s dt).tracePoints.length = limit := by
          rw [htrace, List.length_tail, List.length_append]
          simp
          omega
        have hih := ih (Planet.updateWith limit s dt) (le_of_eq hlen')
        rw [htrace] at hih
        rw [hih]
        rw [List.tail_append_drop _ _ _ (by simp)]
        show _ = (s.tracePoints ++
            ((Planet.updateWith limit s dt).position ::
              Planet.tracePositions limit (Planet.updateWith limit s dt) ds)).drop _
        rw [show s.tracePoints ++
              ((Planet.updateWith limit s dt).position ::
                Planet.tracePositions limit (Planet.updateWith limit s dt) ds)
            = (s.tracePoints ++ [(Planet.updateWith limit s dt).position]) ++
                Planet.tracePositions limit (Planet.updateWith limit s dt) ds by
          simp]
        congr 1
        simp [List.length_tail, List.length_append, List.length_cons]
        omega
      · -- no eviction: the new element fits
        have hfit : s.tracePoints.length + 1 ≤ limit := by
          simp [List.length_append] at hc
          omega
        rw [if_neg hc] at htrace
        have hih := ih (Planet.updateWith limit s dt) (by rw [htrace]; simp; omega)
        rw [htrace] at hih
        rw [hih]
        show _ = (s.tracePoints ++
            ((Planet.updateWith limit s dt).position ::
              Planet.tracePositions limit (Planet.updateWith limit s dt) ds)).drop _
        rw [show s.tracePoints ++
              ((Planet.updateWith limit s dt).position ::
                Planet.tracePositions limit (Planet.updateWith limit s dt) ds)
            = (s.tracePoints ++ [(Planet.updateWith limit s dt).position]) ++
                Planet.tracePositions limit (Planet.updateWith limit s dt) ds by
          simp]
        congr 1
        simp [List.length_append, List.length_cons]
        omega

/-- C4: for every capacity (2500 in `scripts.js` via `traceLimit`, 1000 in
the unnamed variant via `traceLimitAlt`), every body starting from the
constructor's empty trace buffer, and every sequence of `update` calls, the
trace buffer never exceeds the capacity, and it holds exactly the last
`limit` appended positions in chronological order (the first
`dts.length - limit` are evicted, strict FIFO). -/
theorem C4_trace_capacity_fifo (limit : ℕ) (s : Planet) (dts : List ℝ)
    (h : s.tracePoints = []) :
    (Planet.iterUpdate limit s dts).tracePoints.length ≤ limit ∧
    (Planet.iterUpdate limit s dts).tracePoints =
      (Planet.tracePositions limit s dts).drop (dts.length - limit) := by
  have h0 : s.tracePoints.length ≤ limit := by rw [h]; simp
  have hmain := Planet.iterUpdate_tracePoints limit dts s h0
  rw [h] at hmain
  simp only [List.nil_append, List.length_nil, Nat.zero_add] at hmain
  refine ⟨?_, hmain⟩
  rw [hmain, List.length_drop, Planet.tracePositions_length]
  omega

/-- Witness for C4 at the concrete body `pA`, capacity `traceLimit = 2500`
and three update calls. -/
theorem C4_witness :
    pA.tracePoints = [] ∧
    ((Planet.iterUpdate traceLimit pA [1, 2, 3]).tracePoints.length ≤ traceLimit ∧
     (Planet.iterUpdate traceLimit pA [1, 2, 3]).tracePoints =
       (Planet.tracePositions traceLimit pA [1, 2, 3]).drop
         (List.length [(1:ℝ), 2, 3] - traceLimit)) :=
  ⟨rfl, C4_trace_capacity_fifo traceLimit pA [1, 2, 3] rfl⟩

/-! ## C6 -/

/-- C6: for bodies strictly closer than 1 unit, `attract` floors the distance
at 1 before squaring, so the force magnitude is exactly the one computed at
distance 1, namely `G·m1·m2/1²`. -/
theorem C6_distance_floor (self other : Planet)
    (h : Vec3.distanceTo self.position other.position < 1) :
    Planet.attractDistance self other = 1 ∧
    Planet.forceMagnitudeOn self other = G * self.mass * other.mass / (1 * 1) := by
  have h1 : Planet.attractDistance self other = 1 := max_eq_right h.le
  exact ⟨h1, by rw [Planet.forceMagnitudeOn, h1]⟩

/-- A body of mass 5 at the origin. -/
def pD : Planet := ⟨"D", 1, 5, ⟨0, 0, 0⟩, ⟨0, 0, 0⟩, fun _ => none, []⟩

/-- A body of mass 7 at `(0.0001, 0, 0)`, i.e. 0.0001 units from `pD`. -/
def pE : Planet := ⟨"E", 1, 7, ⟨1e-4, 0, 0⟩, ⟨0, 0, 0⟩, fun _ => none, []⟩

lemma pD_pE_close : Vec3.distanceTo pD.position pE.position < 1 := by
  show Vec3.distanceTo ⟨0, 0, 0⟩ ⟨1e-4, 0, 0⟩ < 1
  rw [Vec3.distanceTo_x, abs_lt]
  constructor <;> norm_num

/-- Witness for C6 at two bodies exactly 0.0001 units apart. -/
theorem C6_witness :
    Vec3.distanceTo pD.position pE.position < 1 ∧
    (Planet.attractDistance pD pE = 1 ∧
     Planet.forceMagnitudeOn pD pE = G * pD.mass * pE.mass / (1 * 1)) :=
  ⟨pD_pE_close, C6_distance_floor pD pE pD_pE_close⟩

/-! ## C7 -/

/-- C7 counterexample: with `dt = 0`, `update` still appends the current
position to `tracePoints`, and `attract` still writes `forces[other.name]`,
so the pair of calls is not a no-op on the concrete body `pA`. -/
theorem C7_counterexample :
    (Planet.update pA 0).tracePoints ≠ pA.tracePoints ∧
    (Planet.attract pA pB 0).forces "B" ≠ pA.forces "B" := by
  constructor
  · have h1 : (Planet.update pA 0).tracePoints =
        [Vec3.addScaledVector pA.position pA.velocity 0] := rfl
    rw [h1]
    simp [pA]
  · have h2 : (Planet.attract pA pB 0).forces "B" = some (Planet.accelOn pA pB) := rfl
    rw [h2]
    simp [pA]

/-- C7 (amended): with `dt = 0`, `attract` leaves position, velocity and
tracePoints unchanged but still overwrites `forces[other.name]` (with the
acceleration vector), and `update` leaves position and velocity unchanged
but still appends the (unchanged) position to `tracePoints` and still
replaces every stored forces entry by its in-place normalization
(`force.normalize()` in `createForceArrow`). -/
theorem C7_dt_zero_effects (body other : Planet) :
    ((Planet.attract body other 0).position = body.position ∧
     (Planet.attract body other 0).velocity = body.velocity ∧
     (Planet.attract body other 0).tracePoints = body.tracePoints ∧
     (Planet.attract body other 0).forces other.name = some (Planet.accelOn body other)) ∧
    ((Planet.update body 0).position = body.position ∧
     (Planet.update body 0).velocity = body.velocity ∧
     (Planet.update body 0).tracePoints.getLast? = some body.position ∧
     ∀ n, (Planet.update body 0).forces n = Option.map Vec3.normalize (body.forces n)) := by
  have hv : (Planet.attract body other 0).velocity = body.velocity := by
    rw [Planet.attract_velocity]
    ext <;> simp [Vec3.addScaledVector]
  have hp : (Planet.update body 0).position = body.position := by
    show Vec3.addScaledVector body.position body.velocity 0 = body.position
    ext <;> simp [Vec3.addScaledVector]
  refine ⟨⟨rfl, hv, rfl, ?_⟩, ⟨hp, rfl, ?_, fun n => rfl⟩⟩
  · rw [Planet.attract_forces_apply, if_pos rfl]
  · rw [← hp]
    exact Planet.updateWith_tracePoints_getLast traceLimit (by decide) body 0

/-! ## C8 -/

/-- C8 counterexample: spawning from an empty collection yields a collection
of two entries (the constructor pushes the new body, and `spawnObject` pushes
the same body again), not the old collection extended by one body. -/
theorem C8_counterexample :
    (spawnObject [] 2 3 5 ⟨7, 0, 0⟩ ⟨1, 0, 0⟩).1 ≠
      [] ++ [(spawnObject [] 2 3 5 ⟨7, 0, 0⟩ ⟨1, 0, 0⟩).2] := by
  intro h
  have hlen := congrArg List.length h
  simp [spawnObject] at hlen

/-- C8 (amended): the spawn operation produces a new body whose position is
the origin point `P` and whose velocity is the unit direction `D` scaled by
`speed` and then by the construction-time pre-scale `4e7`; the body is pushed
onto the global collection twice (once by the `Planet` constructor, once by
`spawnObject`), so the collection afterwards equals the old collection
extended by two references to that one new body. -/
theorem C8_spawn (planets : List Planet) (m sz sp : ℝ) (P D : Vec3)
    (hD : Vec3.length D = 1) :
    (spawnObject planets m sz sp P D).2.position = P ∧
    (spawnObject planets m sz sp P D).2.velocity =
      Vec3.smul velocityScale (Vec3.smul sp D) ∧
    (spawnObject planets m sz sp P D).1 =
      planets ++ [(spawnObject planets m sz sp P D).2,
                  (spawnObject planets m sz sp P D).2] := by
  refine ⟨rfl, rfl, ?_⟩
  simp [spawnObject]

lemma length_unitX : Vec3.length ⟨(1:ℝ), 0, 0⟩ = 1 := by
  rw [Vec3.length_x]
  exact abs_one

/-- Witness for C8: spawning with mass 2, size 3, speed 5 from origin point
`(7,0,0)` along the unit direction `(1,0,0)`. -/
theorem C8_witness :
    Vec3.length ⟨(1:ℝ), 0, 0⟩ = 1 ∧
    ((spawnObject [] 2 3 5 ⟨7, 0, 0⟩ ⟨1, 0, 0⟩).2.position = ⟨7, 0, 0⟩ ∧
     (spawnObject [] 2 3 5 ⟨7, 0, 0⟩ ⟨1, 0, 0⟩).2.velocity =
       Vec3.smul velocityScale (Vec3.smul 5 ⟨1, 0, 0⟩) ∧
     (spawnObject [] 2 3 5 ⟨7, 0, 0⟩ ⟨1, 0, 0⟩).1 =
       [] ++ [(spawnObject [] 2 3 5 ⟨7, 0, 0⟩ ⟨1, 0, 0⟩).2,
              (spawnObject [] 2 3 5 ⟨7, 0, 0⟩ ⟨1, 0, 0⟩).2]) :=
  ⟨length_unitX, C8_spawn [] 2 3 5 ⟨7, 0, 0⟩ ⟨1, 0, 0⟩ length_unitX⟩

/-! ## Evaluation helpers on the x-axis (continued) -/

lemma sub_pB_pA : Vec3.sub pB.position pA.position = ⟨2, 0, 0⟩ := by
  ext <;> simp [Vec3.sub, pA, pB]

lemma attractDistance_pA_pB : Planet.attractDistance pA pB = 2 := by
  unfold Planet.attractDistance
  rw [show pA.position = (⟨0, 0, 0⟩ : Vec3) from rfl,
    show pB.position = (⟨2, 0, 0⟩ : Vec3) from rfl,
    Vec3.distanceTo_x_of_le 0 2 (by norm_num)]
  rw [show (2:ℝ) - 0 = 2 by norm_num]
  exact max_eq_left (by norm_num)

/-- The acceleration `pA` receives from `pB`: magnitude `G·2·3/4 · (1/2)`. -/
lemma accelOn_pA_pB : Planet.accelOn pA pB = ⟨G * 3 / 4, 0, 0⟩ := by
  unfold Planet.accelOn Planet.forceMagnitudeOn
  rw [sub_pB_pA, attractDistance_pA_pB, Vec3.normalize_x_pos 2 (by norm_num)]
  rw [show pA.mass = (2:ℝ) from rfl, show pB.mass = (3:ℝ) from rfl]
  ext <;> simp [Vec3.smul] <;> ring

/-! ## C2 -/

/-- C2 counterexample: at the concrete pair `(pA, pB)` (masses 2 and 3 at
distance 2) with `dt = 1`, the vector stored into `forces["B"]` is the
acceleration `⟨G·3/4, 0, 0⟩`, while the signed force vector (unit direction
scaled by the force magnitude `G·2·3/4`) is `⟨G·3/2, 0, 0⟩`; they differ. -/
theorem C2_counterexample :
    (Planet.attract pA pB 1).forces "B" = some ⟨G * 3 / 4, 0, 0⟩ ∧
    Vec3.smul (Planet.forceMagnitudeOn pA pB)
      (Vec3.normalize (Vec3.sub pB.position pA.position)) = ⟨G * 3 / 2, 0, 0⟩ ∧
    (⟨G * 3 / 4, 0, 0⟩ : Vec3) ≠ ⟨G * 3 / 2, 0, 0⟩ := by
  refine ⟨?_, ?_, ?_⟩
  · rw [Planet.attract_forces_apply, if_pos (show "B" = pB.name from rfl), accelOn_pA_pB]
  · unfold Planet.forceMagnitudeOn
    rw [sub_pB_pA, attractDistance_pA_pB, Vec3.normalize_x_pos 2 (by norm_num)]
    rw [show pA.mass = (2:ℝ) from rfl, show pB.mass = (3:ℝ) from rfl]
    ext <;> simp [Vec3.smul] <;> ring
  · intro h
    rw [Vec3.mk.injEq] at h
    exact absurd h.1 (by norm_num [G])

/-- C2 (amended): the vector stored into `A.forces[B.name]` is the signed
gravitational force vector scaled by `1 / A.mass` — the acceleration vector —
because `multiplyScalar` mutates the shared vector in place, so the object
assigned to `forces[B.name]` holds `dir · (G·mA·mB/max(d,1)²) · (1/mA)`. -/
theorem C2_forces_entry (A B : Planet) (dt : ℝ) (hpos : A.position ≠ B.position) :
    (Planet.attract A B dt).forces B.name =
      some (Vec3.smul (1 / A.mass)
        (Vec3.smul (G * A.mass * B.mass / (max (Vec3.distanceTo A.position B.position) 1) ^ 2)
          (Vec3.smul (1 / Vec3.distanceTo A.position B.position)
            (Vec3.sub B.position A.position)))) := by
  rw [Planet.attract_forces_apply, if_pos (rfl : B.name = B.name)]
  unfold Planet.accelOn Planet.forceMagnitudeOn Planet.attractDistance
  rw [Vec3.normalize_sub_of_ne A.position B.position hpos]
  refine congrArg some ?_
  ext <;> simp only [Vec3.smul] <;> ring

/-- Witness for the amended C2 at `(pA, pB)` with `dt = 1`. -/
theorem C2_witness :
    pA.position ≠ pB.position ∧
    (Planet.attract pA pB 1).forces pB.name =
      some (Vec3.smul (1 / pA.mass)
        (Vec3.smul (G * pA.mass * pB.mass /
            (max (Vec3.distanceTo pA.position pB.position) 1) ^ 2)
          (Vec3.smul (1 / Vec3.distanceTo pA.position pB.position)
            (Vec3.sub pB.position pA.position)))) :=
  ⟨pA_position_ne_pB, C2_forces_entry pA pB 1 pA_position_ne_pB⟩

/-! ## C5 -/

/-- Unfolding of one frame over a two-body collection: the first body
attracts to the second and updates; the second body then attracts to the
*already updated* first body and updates. -/
lemma stepPlanets_pair (dt : ℝ) (A B : Planet) :
    stepPlanets dt [A, B] =
      [Planet.update (Planet.attract A B dt) dt,
       Planet.update
         (Planet.attract B (Planet.update (Planet.attract A B dt) dt) dt) dt] := rfl

/-- Unfolding of one frame over a three-body collection, exhibiting the
attraction order: each body attracts to every other body in collection order
(skipping itself) and then immediately updates, so bodies earlier in the
collection are seen in their updated state by later bodies. -/
lemma stepPlanets_triple (dt : ℝ) (A B C : Planet) :
    stepPlanets dt [A, B, C] =
      [Planet.update (Planet.attract (Planet.attract A B dt) C dt) dt,
       Planet.update
         (Planet.attract
           (Planet.attract B (Planet.update (Planet.attract (Planet.attract A B dt) C dt) dt) dt)
           C dt) dt,
       Planet.update
         (Planet.attract
           (Planet.attract C (Planet.update (Planet.attract (Planet.attract A B dt) C dt) dt) dt)
           (Planet.update
             (Planet.attract
               (Planet.attract B
                 (Planet.update (Planet.attract (Planet.attract A B dt) C dt) dt) dt) C dt) dt)
           dt) dt] := rfl

/-- The state of `pA` after the first half of a frame: attracted by `pB`,
then updated (it has moved toward `pB` by `G·3/4` units). -/
def pA1 : Planet := Planet.update (Planet.attract pA pB 1) 1

lemma pA1_position : pA1.position = ⟨G * 3 / 4, 0, 0⟩ := by
  show Vec3.addScaledVector pA.position (Planet.attract pA pB 1).velocity 1 = _
  rw [Planet.attract_velocity, accelOn_pA_pB]
  ext <;> simp [Vec3.addScaledVector, pA]

/-- `pB` attracted by the original (not yet updated) `pA`. -/
lemma attract_pB_pA_velocity :
    (Planet.attract pB pA 1).velocity = ⟨-(G / 2), 0, 0⟩ := by
  rw [Planet.attract_velocity]
  unfold Planet.accelOn Planet.forceMagnitudeOn Planet.attractDistance
  rw [show Vec3.sub pA.position pB.position = (⟨-2, 0, 0⟩ : Vec3) by
    ext <;> simp [Vec3.sub, pA, pB]]
  rw [Vec3.normalize_x_neg (-2) (by norm_num)]
  rw [show Vec3.distanceTo pB.position pA.position = 2 by
    rw [show pB.position = (⟨2, 0, 0⟩ : Vec3) from rfl,
      show pA.position = (⟨0, 0, 0⟩ : Vec3) from rfl, Vec3.distanceTo_x]
    rw [abs_of_nonneg (by norm_num : (0:ℝ) ≤ 2 - 0)]
    norm_num]
  rw [show max (2:ℝ) 1 = 2 from max_eq_left (by norm_num)]
  rw [show pB.mass = (3:ℝ) from rfl, show pA.mass = (2:ℝ) from rfl,
    show pB.velocity = (⟨0, 0, 0⟩ : Vec3) from rfl]
  ext <;> simp only [Vec3.addScaledVector, Vec3.smul] <;> ring

/-- `pB` attracted by the already-updated `pA1`: the distance is now
`2 - G·3/4`, so the acceleration magnitude is `2·G/(2 - G·3/4)²`. -/
lemma attract_pB_pA1_velocity :
    (Planet.attract pB pA1 1).velocity =
      ⟨-(2 * G / ((2 - G * 3 / 4) * (2 - G * 3 / 4))), 0, 0⟩ := by
  rw [Planet.attract_velocity]
  unfold Planet.accelOn Planet.forceMagnitudeOn Planet.attractDistance
  rw [show Vec3.sub pA1.position pB.position = (⟨G * 3 / 4 - 2, 0, 0⟩ : Vec3) by
    rw [show pA1.position = (⟨G * 3 / 4, 0, 0⟩ : Vec3) from pA1_position]
    ext <;> simp [Vec3.sub, pB]]
  rw [Vec3.normalize_x_neg (G * 3 / 4 - 2) (by norm_num [G])]
  rw [show Vec3.distanceTo pB.position pA1.position = 2 - G * 3 / 4 by
    rw [show pA1.position = (⟨G * 3 / 4, 0, 0⟩ : Vec3) from pA1_position,
      show pB.position = (⟨2, 0, 0⟩ : Vec3) from rfl, Vec3.distanceTo_x]
    rw [abs_of_nonneg (by norm_num [G] : (0:ℝ) ≤ 2 - G * 3 / 4)]]
  rw [max_eq_left (by norm_num [G] : (1:ℝ) ≤ 2 - G * 3 / 4)]
  rw [show pB.mass = (3:ℝ) from rfl, show pA1.mass = (2:ℝ) from rfl,
    show pB.velocity = (⟨0, 0, 0⟩ : Vec3) from rfl]
  ext <;> simp only [Vec3.addScaledVector, Vec3.smul] <;> ring

/-- The two velocities differ: `2·G/(2 - G·3/4)² ≠ G/2` since `G ≠ 0` and
`(2 - G·3/4)² ≠ 4`. -/
lemma attract_pB_velocity_ne :
    (Planet.attract pB pA1 1).velocity ≠ (Planet.attract pB pA 1).velocity := by
  rw [attract_pB_pA1_velocity, attract_pB_pA_velocity]
  intro h
  rw [Vec3.mk.injEq] at h
  exact absurd h.1 (by norm_num [G])

/-- C5 counterexample: in a frame over `[pA, pB]`, the resulting state of
`pB` (the later body) is *not* what it would be had `pB` attracted toward
the not-yet-updated `pA`: its attraction uses `pA`'s already-updated
position. -/
theorem C5_counterexample :
    ((stepPlanets 1 [pA, pB]).getD 1 default).velocity ≠
      (Planet.update (Planet.attract pB pA 1) 1).velocity := by
  rw [stepPlanets_pair]
  show (Planet.attract pB pA1 1).velocity ≠ (Planet.attract pB pA 1).velocity
  exact attract_pB_velocity_ne

/-- C5 (amended): one frame processes the bodies sequentially — each body,
in collection order, attracts to every other body in collection order
(excluding itself) and is then immediately updated, so a later body computes
its attractions using the *already-updated* positions of earlier bodies (and
the not-yet-updated positions of later ones); consequently the result of a
step depends on the order of the bodies in the collection, witnessed
concretely by `[pA, pB]` versus `[pB, pA]`. -/
theorem C5_step_structure :
    (∀ (dt : ℝ) (A B : Planet),
      stepPlanets dt [A, B] =
        [Planet.update (Planet.attract A B dt) dt,
         Planet.update
           (Planet.attract B (Planet.update (Planet.attract A B dt) dt) dt) dt]) ∧
    ((stepPlanets 1 [pA, pB]).getD 1 default).velocity ≠
      ((stepPlanets 1 [pB, pA]).getD 0 default).velocity := by
  refine ⟨stepPlanets_pair, ?_⟩
  rw [stepPlanets_pair, stepPlanets_pair]
  show (Planet.attract pB pA1 1).velocity ≠ (Planet.attract pB pA 1).velocity
  exact attract_pB_velocity_ne

end SolarSystem
